import Mathlib

/-!
Shallow embedding of the storage utility module of azure-sdk-tools-xplat
(lib/commands/storage.util._js): the operation dispatcher
`performStorageOperation`, the configuration resolvers
`getRestConcurrency` / `getDefaultRestConcurrency` /
`getRestOperationTimeout`, the timeout injector `setOperationTimeout`,
and a transition-system model of the streamline funnel concurrency gate.

JavaScript values relevant to the dispatcher are modelled explicitly:
`undefined` versus `null` versus objects, truthiness, and `typeof f
=== 'function'`.  Machine numbers are modelled as `Int` (the module
only ever produces integers via `parseInt(s, 10)`); `NaN` is modelled
by `Option.none` as the result of parsing.
-/

namespace StorageUtil

/-- A JavaScript value sitting in a property slot of a service handle:
either `undefined` (the property is absent), a function, or some other
value with a given truthiness. -/
inductive JsVal where
  | undef : JsVal
  | func : JsVal
  | nonFunc (truthy : Bool) : JsVal
deriving DecidableEq

/-- Embeds `typeof func === 'function'` (source helper `isFunction`). -/
def isFunction : JsVal → Bool
  | JsVal.func => true
  | _ => false

/-- JavaScript truthiness of a slot value, as tested by `!service[operation]`.
A function is always truthy; `undefined` is falsy. -/
def isTruthy : JsVal → Bool
  | JsVal.undef => false
  | JsVal.func => true
  | JsVal.nonFunc t => t

/-- A service handle is a mapping from method names to property slots
(`service[operation]` in the source). -/
def Service : Type := String → JsVal

/-- The `StorageOperation` descriptor constructed by
`StorageUtil.StorageOperation(type, operation)`.  A field holding
`Option.none` models a `null`/`undefined` (falsy) field, as consumed by
`storageOperation.type || ''`. -/
structure StorageOperation where
  type : Option String
  operation : Option String

/-- The first argument of `performStorageOperation` as a JavaScript value:
the literal `null`, the literal `undefined`, or an operation descriptor
object. -/
inductive JsArg where
  | jsNull : JsArg
  | jsUndefined : JsArg
  | desc (d : StorageOperation) : JsArg

/-- Embeds `x || ''` for an optional string field. -/
def jsOrEmpty : Option String → String
  | none => ""
  | some s => s

/-- Embeds JavaScript `String.prototype.toLowerCase` (ASCII). -/
def toLowerCase (s : String) : String := String.mk (s.toList.map Char.toLower)

/-- `StorageUtil.OperationType.Blob`. -/
def OperationTypeBlob : String := "blob"

/-- `StorageUtil.OperationType.Queue`. -/
def OperationTypeQueue : String := "queue"

/-- `StorageUtil.OperationType.Table`. -/
def OperationTypeTable : String := "table"

/-- Failure modes of the dispatcher.  `invalidOperationType` embeds the
thrown string `'Invalid azure operation type : ' + type`;
`invalidOperation` embeds `'Invalid operation "' + operation + '" in ' +
type + ' service'`; `typeErrorUndefinedAccess` embeds the TypeError the
runtime raises when `storageOperation.type` is read off `undefined`. -/
inductive DispatchError where
  | invalidOperationType (ty : String) : DispatchError
  | invalidOperation (op ty : String) : DispatchError
  | typeErrorUndefinedAccess : DispatchError
deriving DecidableEq

/-- The module-level environment of the dispatcher: the three service
handles produced by `getBlobService` / `getTableService` /
`getQueueService`, and an abstract model of a successful remote method
invocation (its result, indexed by service kind and method name). -/
structure Env where
  blobService : Service
  tableService : Service
  queueService : Service
  invoke : String → String → Int

/-- The `switch (type)` of `performStorageOperation`: resolves the service
handle for a (lower-cased) kind string, `none` for the `default` branch. -/
def resolveService (env : Env) (ty : String) : Option Service :=
  if ty = OperationTypeBlob then some env.blobService
  else if ty = OperationTypeTable then some env.tableService
  else if ty = OperationTypeQueue then some env.queueService
  else none

/-- Embeds `StorageUtil.performStorageOperation(storageOperation, _)`.
`Except.ok none` models returning with no result (the bare `return;` on a
`null` argument); `Except.ok (some r)` models returning the remote call's
result; `Except.error e` models a thrown error.  The funnel admission is
modelled separately (it does not change the sequential value). -/
def performStorageOperation (env : Env) (storageOperation : JsArg) :
    Except DispatchError (Option Int) :=
  match storageOperation with
  | JsArg.jsNull => Except.ok none
  | JsArg.jsUndefined => Except.error DispatchError.typeErrorUndefinedAccess
  | JsArg.desc d =>
    let type := toLowerCase (jsOrEmpty d.type)
    let operation := jsOrEmpty d.operation
    match resolveService env type with
    | none => Except.error (DispatchError.invalidOperationType type)
    | some service =>
      if !(isTruthy (service operation)) || !(isFunction (service operation)) then
        Except.error (DispatchError.invalidOperation operation type)
      else
        Except.ok (some (env.invoke type operation))

/-- Value of the digit string (used by the `parseInt` model). -/
def digitsToNat (ds : List Char) : Nat :=
  ds.foldl (fun acc c => acc * 10 + (c.toNat - Char.toNat '0')) 0

/-- Embeds JavaScript `parseInt(s, 10)`: strip leading whitespace, an
optional sign, then the longest prefix of decimal digits; `none` models
`NaN` (no digits). -/
def jsParseInt10 (s : String) : Option Int :=
  let cs := s.toList.dropWhile Char.isWhitespace
  let signAndRest : Int × List Char :=
    match cs with
    | '-' :: rest => (-1, rest)
    | '+' :: rest => (1, rest)
    | _ => (1, cs)
  let ds := signAndRest.2.takeWhile Char.isDigit
  if ds.isEmpty then none
  else some (signAndRest.1 * (digitsToNat ds : Int))

/-- Embeds `parseInt(cfg[key], 10)` where the configuration value at the
key is optional: `parseInt(undefined, 10)` is `NaN`, modelled `none`. -/
def jsParseIntOfConfig : Option String → Option Int
  | none => none
  | some s => jsParseInt10 s

/-- Embeds `getRestOperationTimeout(cfg)`, applied to the configuration
value stored under `azure_storage_timeout`.  `none` models `null`. -/
def getRestOperationTimeout (v : Option String) : Option Int :=
  match jsParseIntOfConfig v with
  | none => none
  | some definedTimeout =>
    if definedTimeout ≤ 0 then none else some definedTimeout

/-- Embeds `getDefaultRestConcurrency()`: `os.cpus().length` times the
hard-coded per-core multiplier 1. -/
def getDefaultRestConcurrency (cpuCount : Nat) : Int :=
  let asyncTasksPerCoreMultiplier : Nat := 1
  ((cpuCount * asyncTasksPerCoreMultiplier : Nat) : Int)

/-- Embeds `getRestConcurrency(cfg)`, applied to the configuration value
stored under `azure_storage_concurrency` and the host CPU count.
`isNaN(definedConcurrency)` corresponds to the parse returning `none`. -/
def getRestConcurrency (v : Option String) (cpuCount : Nat) : Int :=
  match jsParseIntOfConfig v with
  | none => getDefaultRestConcurrency cpuCount
  | some definedConcurrency =>
    if definedConcurrency = 0 then getDefaultRestConcurrency cpuCount
    else definedConcurrency

/-- The options object passed to `setOperationTimeout`.  The source tests
the property `timeoutintervalInMs` (lower-case `i`) but assigns the
property `timeoutIntervalInMs` (capital `I`); JavaScript property names
are case-sensitive, so these are two distinct slots and both are
modelled.  `otherFields` stands for every remaining property of the
object. -/
structure RequestOptions where
  timeoutIntervalInMs : Option Int
  timeoutintervalInMs : Option Int
  otherFields : List (String × Int)
deriving DecidableEq

/-- Embeds `StorageUtil.setOperationTimeout(options)` with the module
variable `operationTimeout` passed explicitly (`none` models `null`).
The guard is `options.timeoutintervalInMs === undefined &&
operationTimeout !== null && !isNaN(operationTimeout) &&
operationTimeout > 0`; `operationTimeout` comes from
`getRestOperationTimeout`, hence is an integer whenever non-null, so the
`isNaN` conjunct cannot fire in the `Int` model. -/
def setOperationTimeout (operationTimeout : Option Int)
    (options : RequestOptions) : RequestOptions :=
  match operationTimeout with
  | none => options
  | some t =>
    if options.timeoutintervalInMs = none ∧ 0 < t then
      { options with timeoutIntervalInMs := some t }
    else options

/-- Modelled from the spec: the streamline `flows.funnel(restConcurrency)`
gate wrapped around the invocation in `performStorageOperation` lives in
the streamline dependency, not in this repository; the spec describes it
as a bounded-admission primitive.  A caller (one logical task) is in one
of three phases: waiting for a slot, executing inside the funnel, or
done. -/
inductive Phase where
  | waiting : Phase
  | executing : Phase
  | done : Phase
deriving DecidableEq

/-- Number of callers currently inside the funnel (in the Executing
state). -/
def countExecuting : List Phase → Nat
  | [] => 0
  | Phase.executing :: rest => countExecuting rest + 1
  | _ :: rest => countExecuting rest

/-- Modelled from the spec: one transition of the funnel gate of capacity
`N` over the phase vector of the callers.  A waiting caller may enter
only when fewer than `N` callers are executing; an executing caller may
leave at any time (release happens on completion, success or failure). -/
inductive FunnelStep (N : Nat) : List Phase → List Phase → Prop where
  | enter (pre post : List Phase) :
      countExecuting (pre ++ Phase.waiting :: post) < N →
      FunnelStep N (pre ++ Phase.waiting :: post) (pre ++ Phase.executing :: post)
  | leave (pre post : List Phase) :
      FunnelStep N (pre ++ Phase.executing :: post) (pre ++ Phase.done :: post)

/-- Modelled from the spec: the states reachable by the funnel gate of
capacity `N` starting from `M` concurrent callers, all initially
waiting. -/
def FunnelReachable (N M : Nat) (s : List Phase) : Prop :=
  Relation.ReflTransGen (FunnelStep N) (List.replicate M Phase.waiting) s

lemma countExecuting_append (l₁ l₂ : List Phase) :
    countExecuting (l₁ ++ l₂) = countExecuting l₁ + countExecuting l₂ := by
  induction l₁ with
  | nil => simp [countExecuting]
  | cons x rest ih => cases x <;> simp [countExecuting, ih, Nat.add_right_comm]

lemma countExecuting_replicate_waiting (M : Nat) :
    countExecuting (List.replicate M Phase.waiting) = 0 := by
  induction M with
  | zero => rfl
  | succ k ih => simpa [List.replicate_succ, countExecuting] using ih

lemma funnelStep_countExecuting_le {N : Nat} {s t : List Phase}
    (hstep : FunnelStep N s t) (hs : countExecuting s ≤ N) :
    countExecuting t ≤ N := by
  cases hstep with
  | enter pre post hlt =>
    simp only [countExecuting_append, countExecuting] at hlt ⊢
    omega
  | leave pre post =>
    simp only [countExecuting_append, countExecuting] at hs ⊢
    omega

lemma funnelReachable_countExecuting_le {N M : Nat} {s : List Phase}
    (h : FunnelReachable N M s) : countExecuting s ≤ N := by
  induction h with
  | refl => simp [countExecuting_replicate_waiting]
  | tail _ hstep ih => exact funnelStep_countExecuting_le hstep ih

/-- A concrete service handle exposing a single invocable method,
`listContainers`; every other property is absent (`undefined`). -/
def sampleService : Service := fun op =>
  if op = "listContainers" then JsVal.func else JsVal.undef

/-- A concrete dispatcher environment built from `sampleService`. -/
def sampleEnv : Env :=
  { blobService := sampleService
    tableService := sampleService
    queueService := sampleService
    invoke := fun _ _ => 0 }

end StorageUtil

namespace StorageUtil

/-- C1: the spec says `setOperationTimeout` never overwrites a
caller-supplied `timeoutIntervalInMs`, but the guard reads the
misspelled property `timeoutintervalInMs`, which a caller supplying
`timeoutIntervalInMs = 5` leaves `undefined`; with override `T = 10`
the caller's value is overwritten to `10`. -/
theorem setOperationTimeout_overwrites_caller_timeout :
    setOperationTimeout (some 10)
        { timeoutIntervalInMs := some 5, timeoutintervalInMs := none,
          otherFields := [] } =
      { timeoutIntervalInMs := some 10, timeoutintervalInMs := none,
        otherFields := [] } := by
  decide

/-- C2 counterexample: the configured value `"-1"` parses to `-1`, which
`getRestConcurrency` returns as-is, so the resolved limit is not always
≥ 1. -/
theorem getRestConcurrency_negative_counterexample :
    getRestConcurrency (some "-1") 4 = -1 ∧
      ¬ (1 ≤ getRestConcurrency (some "-1") 4) := by
  decide

/-- C2 (amended): whenever the host reports at least one CPU and the
configured concurrency value does not parse to a negative integer, the
resolved concurrency limit is ≥ 1. -/
theorem getRestConcurrency_pos_of_nonneg_config (v : Option String)
    (cpuCount : Nat) (hcpu : 1 ≤ cpuCount)
    (hnonneg : ∀ n : Int, jsParseIntOfConfig v = some n → 0 ≤ n) :
    1 ≤ getRestConcurrency v cpuCount := by
  unfold getRestConcurrency getDefaultRestConcurrency
  cases hv : jsParseIntOfConfig v with
  | none =>
    simp only []
    omega
  | some n =>
    have hn := hnonneg n hv
    simp only []
    by_cases h0 : n = 0
    · simp only [if_pos h0]
      omega
    · simp only [if_neg h0]
      omega

/-- Witness for C2 (amended) at configured value `"8"` and 4 CPUs. -/
theorem getRestConcurrency_pos_witness :
    1 ≤ getRestConcurrency (some "8") 4 :=
  getRestConcurrency_pos_of_nonneg_config (some "8") 4 (by decide)
    (by
      intro n h
      rw [show jsParseIntOfConfig (some "8") = some 8 from by decide] at h
      injection h with h8
      omega)

/-- C3: when the concurrency configuration value is absent, non-numeric,
or parses to exactly 0, `getRestConcurrency` returns `cpuCount × 1`;
when it parses to any other integer, that integer is returned as-is. -/
theorem getRestConcurrency_resolution (v : Option String) (cpuCount : Nat) :
    ((jsParseIntOfConfig v = none ∨ jsParseIntOfConfig v = some 0) →
       getRestConcurrency v cpuCount = (cpuCount : Int) * 1) ∧
    (∀ n : Int, jsParseIntOfConfig v = some n → n ≠ 0 →
       getRestConcurrency v cpuCount = n) := by
  constructor
  · intro h
    rcases h with h | h
    · unfold getRestConcurrency getDefaultRestConcurrency
      rw [h]
      simp
    · unfold getRestConcurrency getDefaultRestConcurrency
      rw [h]
      simp
  · intro n h hne
    unfold getRestConcurrency
    rw [h]
    simp [hne]

/-- Witness for C3, the spec's three concrete scenarios: config unset and
4 CPUs gives 4; config `"0"` gives 4 (fallback); config `"8"` gives 8. -/
theorem getRestConcurrency_resolution_witness :
    getRestConcurrency none 4 = 4 ∧ getRestConcurrency (some "0") 4 = 4 ∧
      getRestConcurrency (some "8") 4 = 8 := by
  refine ⟨?_, ?_, ?_⟩
  · have h := (getRestConcurrency_resolution none 4).1 (Or.inl (by decide))
    simpa using h
  · have h := (getRestConcurrency_resolution (some "0") 4).1
      (Or.inr (by decide))
    simpa using h
  · exact (getRestConcurrency_resolution (some "8") 4).2 8 (by decide)
      (by decide)

/-- C4 counterexample: dispatching with kind `"FTP"` fails with
`InvalidOperationType` carrying the lower-cased string `"ftp"`, not the
caller's original string `"FTP"` verbatim. -/
theorem performStorageOperation_kind_not_verbatim :
    performStorageOperation sampleEnv
        (JsArg.desc { type := some "FTP", operation := some "listContainers" }) =
      Except.error (DispatchError.invalidOperationType "ftp") ∧
    DispatchError.invalidOperationType "ftp" ≠
      DispatchError.invalidOperationType "FTP" := by
  constructor
  · rfl
  · decide

/-- C4 (amended): for every descriptor whose kind does not
case-insensitively match blob, queue or table, `performStorageOperation`
fails with `InvalidOperationType` carrying the lowercase-normalized kind
string. -/
theorem performStorageOperation_invalid_kind (env : Env)
    (d : StorageOperation)
    (h : toLowerCase (jsOrEmpty d.type) ∉
      [OperationTypeBlob, OperationTypeTable, OperationTypeQueue]) :
    performStorageOperation env (JsArg.desc d) =
      Except.error
        (DispatchError.invalidOperationType (toLowerCase (jsOrEmpty d.type))) := by
  simp only [List.mem_cons, List.mem_singleton, not_or] at h
  obtain ⟨hb, ht, hq, -⟩ := h
  have hres : resolveService env (toLowerCase (jsOrEmpty d.type)) = none := by
    unfold resolveService
    rw [if_neg hb, if_neg ht, if_neg hq]
  have hstep : performStorageOperation env (JsArg.desc d) =
      match resolveService env (toLowerCase (jsOrEmpty d.type)) with
      | none =>
        Except.error
          (DispatchError.invalidOperationType (toLowerCase (jsOrEmpty d.type)))
      | some service =>
        if !(isTruthy (service (jsOrEmpty d.operation))) ||
            !(isFunction (service (jsOrEmpty d.operation))) then
          Except.error
            (DispatchError.invalidOperation (jsOrEmpty d.operation)
              (toLowerCase (jsOrEmpty d.type)))
        else
          Except.ok
            (some (env.invoke (toLowerCase (jsOrEmpty d.type))
              (jsOrEmpty d.operation))) := rfl
  rw [hstep, hres]

/-- Witness for C4 (amended) at kind `"ftp"`, the spec's scenario. -/
theorem performStorageOperation_invalid_kind_witness :
    performStorageOperation sampleEnv
        (JsArg.desc { type := some "ftp", operation := some "listContainers" }) =
      Except.error (DispatchError.invalidOperationType "ftp") :=
  performStorageOperation_invalid_kind sampleEnv
    { type := some "ftp", operation := some "listContainers" } (by decide)

/-- C5: for a descriptor whose kind resolves to a service handle, if the
method-name slot on that handle is not an invocable function (absent or
a non-function value), the dispatcher fails with `InvalidOperation`
carrying the method name and the (normalized) service kind. -/
theorem performStorageOperation_invalid_method (env : Env)
    (d : StorageOperation) (service : Service)
    (hres : resolveService env (toLowerCase (jsOrEmpty d.type)) = some service)
    (hniv : isFunction (service (jsOrEmpty d.operation)) = false) :
    performStorageOperation env (JsArg.desc d) =
      Except.error
        (DispatchError.invalidOperation (jsOrEmpty d.operation)
          (toLowerCase (jsOrEmpty d.type))) := by
  have hstep : performStorageOperation env (JsArg.desc d) =
      match resolveService env (toLowerCase (jsOrEmpty d.type)) with
      | none =>
        Except.error
          (DispatchError.invalidOperationType (toLowerCase (jsOrEmpty d.type)))
      | some service =>
        if !(isTruthy (service (jsOrEmpty d.operation))) ||
            !(isFunction (service (jsOrEmpty d.operation))) then
          Except.error
            (DispatchError.invalidOperation (jsOrEmpty d.operation)
              (toLowerCase (jsOrEmpty d.type)))
        else
          Except.ok
            (some (env.invoke (toLowerCase (jsOrEmpty d.type))
              (jsOrEmpty d.operation))) := rfl
  rw [hstep, hres]
  simp [hniv]

/-- Witness for C5, the spec's scenario: kind `"BLOB"` with method
`"nonexistentMethod"` fails referencing the method name and `"blob"`. -/
theorem performStorageOperation_invalid_method_witness :
    performStorageOperation sampleEnv
        (JsArg.desc { type := some "BLOB", operation := some "nonexistentMethod" }) =
      Except.error (DispatchError.invalidOperation "nonexistentMethod" "blob") :=
  performStorageOperation_invalid_method sampleEnv
    { type := some "BLOB", operation := some "nonexistentMethod" }
    sampleService rfl rfl

/-- C6: in every state the funnel gate of capacity `N` can reach from
`M > N` concurrent callers, at most `N` callers are simultaneously in
the Executing state. -/
theorem funnel_executing_le_capacity (N M : Nat) (s : List Phase)
    (_hMN : N < M) (h : FunnelReachable N M s) : countExecuting s ≤ N :=
  funnelReachable_countExecuting_le h

/-- Witness for C6: with capacity 1 and 2 callers, the state reached by
admitting the first caller has one executing caller, within the bound. -/
theorem funnel_executing_le_capacity_witness :
    countExecuting [Phase.executing, Phase.waiting] ≤ 1 :=
  funnel_executing_le_capacity 1 2 [Phase.executing, Phase.waiting]
    (by decide)
    (Relation.ReflTransGen.single
      (FunnelStep.enter [] [Phase.waiting] (by decide)))

/-- C7: a `null` operation descriptor makes `performStorageOperation` a
no-op: it returns no result and raises no error. -/
theorem performStorageOperation_null_noop (env : Env) :
    performStorageOperation env JsArg.jsNull = Except.ok none := rfl

/-- C8: `getRestOperationTimeout` returns `null` when the timeout value
is absent, non-numeric, or parses to ≤ 0, and the parsed positive
integer otherwise. -/
theorem getRestOperationTimeout_resolution (v : Option String) :
    (jsParseIntOfConfig v = none → getRestOperationTimeout v = none) ∧
    (∀ n : Int, jsParseIntOfConfig v = some n → n ≤ 0 →
       getRestOperationTimeout v = none) ∧
    (∀ n : Int, jsParseIntOfConfig v = some n → 0 < n →
       getRestOperationTimeout v = some n) := by
  refine ⟨?_, ?_, ?_⟩
  · intro h
    unfold getRestOperationTimeout
    rw [h]
  · intro n h hle
    unfold getRestOperationTimeout
    rw [h]
    simp [hle]
  · intro n h hpos
    unfold getRestOperationTimeout
    rw [h]
    simp
    omega

/-- Witness for C8: absent, `"0"`, `"-5"` give no override; `"300"`
gives a 300 ms override. -/
theorem getRestOperationTimeout_resolution_witness :
    getRestOperationTimeout none = none ∧
      getRestOperationTimeout (some "0") = none ∧
      getRestOperationTimeout (some "-5") = none ∧
      getRestOperationTimeout (some "300") = some 300 := by
  refine ⟨?_, ?_, ?_, ?_⟩
  · exact (getRestOperationTimeout_resolution none).1 (by decide)
  · exact (getRestOperationTimeout_resolution (some "0")).2.1 0 (by decide)
      (by decide)
  · exact (getRestOperationTimeout_resolution (some "-5")).2.1 (-5)
      (by decide) (by decide)
  · exact (getRestOperationTimeout_resolution (some "300")).2.2 300
      (by decide) (by decide)

/-- C9: the no-op short-circuit applies only to the literal `null`: on
the `undefined` descriptor the dispatcher immediately reads
`storageOperation.type` and raises a TypeError, so the call is not a
no-op and returns no successful result. -/
theorem performStorageOperation_undefined_not_noop (env : Env) :
    performStorageOperation env JsArg.jsUndefined =
        Except.error DispatchError.typeErrorUndefinedAccess ∧
      ∀ r : Option Int,
        performStorageOperation env JsArg.jsUndefined ≠ Except.ok r := by
  constructor
  · rfl
  · intro r h
    simp [performStorageOperation] at h

/-- C10: `setOperationTimeout` mutates at most the `timeoutIntervalInMs`
property of its options argument: the guarded property
`timeoutintervalInMs` and every other field are unchanged. -/
theorem setOperationTimeout_frame (operationTimeout : Option Int)
    (options : RequestOptions) :
    (setOperationTimeout operationTimeout options).timeoutintervalInMs =
        options.timeoutintervalInMs ∧
      (setOperationTimeout operationTimeout options).otherFields =
        options.otherFields := by
  cases operationTimeout with
  | none => exact ⟨rfl, rfl⟩
  | some t =>
    have hdef : setOperationTimeout (some t) options =
        if options.timeoutintervalInMs = none ∧ 0 < t then
          { options with timeoutIntervalInMs := some t }
        else options := rfl
    rw [hdef]
    by_cases h : options.timeoutintervalInMs = none ∧ 0 < t
    · rw [if_pos h]
      exact ⟨rfl, rfl⟩
    · rw [if_neg h]
      exact ⟨rfl, rfl⟩

end StorageUtil
